import Mathlib

/-!
Verification of the github2notion synchronization tool.

This file is a shallow embedding of the pure core of `src/main.d.ts`
(the refined, schema-aware implementation): the issue extractor, the
row property mapper, the reconciliation engine, the batch grouping and
the startup environment validation.  Effectful parts (HTTP clients,
console logging) are out of scope; only the data transformations they
consume are embedded.
-/

/-- JavaScript truthiness of an optional string: `undefined`/missing and the
empty string `""` are falsy, every other string is truthy.  Used to embed the
`!!x` and `if (x)` tests of the source. -/
def jsTruthyStr : Option String → Bool
  | none => false
  | some s => !(s == "")

/-- A GitHub label as delivered by the issues API: either a bare string or a
label object carrying an optional `name` field.  Of the label object only the
`name` field is behaviourally relevant in the source, so the object is
embedded by that field. -/
inductive GitHubLabel where
  | str (s : String)
  | obj (name : Option String)
deriving DecidableEq

/-- `isLabelObject` from the source: `(value) => !isString(value)` with
lodash's `isString`, so label objects pass and bare strings do not. -/
def isLabelObject : GitHubLabel → Bool
  | .str _ => false
  | .obj _ => true

/-- The `name` field read off a label entry (`undefined` both for a bare
string and for an object without a name). -/
def labelNameOf : GitHubLabel → Option String
  | .str _ => none
  | .obj n => n

/-- `has` from the source:
`labels.filter(isLabelObject).some(label => label.name === id)`. -/
def has (labels : List GitHubLabel) (id : String) : Bool :=
  (labels.filter isLabelObject).any fun label => labelNameOf label == some id

/-- `getPriorityFrom` from the source:
`has(labels, "Low Priority") ? "Low Priority" : has(labels, "High Priority") ? "High Priority" : undefined`. -/
def getPriorityFrom (labels : List GitHubLabel) : Option String :=
  if has labels "Low Priority" then some "Low Priority"
  else if has labels "High Priority" then some "High Priority"
  else none

/-- `getTypeFrom` from the source:
`has(labels, "Bug") ? "Bug" : has(labels, "Tech Debt") ? "Tech Debt" : undefined`. -/
def getTypeFrom (labels : List GitHubLabel) : Option String :=
  if has labels "Bug" then some "Bug"
  else if has labels "Tech Debt" then some "Tech Debt"
  else none

/-- The fields of a raw GitHub issue record that `extractIssuePropsFrom`
reads: number, title, state, html_url, created_at, labels, body (the body may
be `null`/missing, embedded as `none`). -/
structure GitHubIssue where
  number : Nat
  title : String
  state : String
  html_url : String
  created_at : String
  labels : List GitHubLabel
  body : Option String
deriving DecidableEq

/-- `ExtractedGitHubIssue` from the source: the compact internal issue
representation.  `type`, `priority` and `description` are optional; their
string values are kept as plain strings as at runtime. -/
structure ExtractedGitHubIssue where
  id : Nat
  title : String
  state : String
  url : String
  created_at : String
  type : Option String
  priority : Option String
  description : Option String
deriving DecidableEq

/-- JavaScript `s.substring(0, stop)`: the first `stop` characters of `s`
(the whole string when it is shorter). -/
def jsSubstring (s : String) (stop : Nat) : String :=
  String.mk (s.data.take stop)

/-- `extractIssuePropsFrom` from the source: normalizes a raw issue record,
deriving priority and type from the labels and truncating the body with
`issue.body?.substring(0, 1999)`. -/
def extractIssuePropsFrom (issue : GitHubIssue) : ExtractedGitHubIssue :=
  { id := issue.number
    title := issue.title
    state := issue.state
    url := issue.html_url
    created_at := issue.created_at
    priority := getPriorityFrom issue.labels
    type := getTypeFrom issue.labels
    description := issue.body.map fun b => jsSubstring b 1999 }

/-- `ISSUE_COLUMN` from the source. -/
def ISSUE_COLUMN : String := "Issue Number"

/-- The shapes of Notion page property values produced by the mapper. -/
inductive NotionPropValue where
  | title (content : String)
  | number (n : Nat)
  | select (name : String)
  | url (u : String)
  | date (start : String)
  | rich_text (content : String)
deriving DecidableEq

/-- Embedding of the conditional spread `...(!!v && { key: mk(v) })` used by
the mapper for its optional fields: one entry when the value is truthy,
nothing at all otherwise. -/
def optionalEntry (key : String) (mk : String → NotionPropValue) (v : Option String) :
    List (String × NotionPropValue) :=
  match v with
  | some s => if s == "" then [] else [(key, mk s)]
  | none => []

/-- `notionPagePropertiesFrom` from the source: the field-set for a create or
update call, embedded as an association list in the construction order of the
source object literal (five required entries, then the conditionally spread
Priority, Type and Description entries). -/
def notionPagePropertiesFrom (issue : ExtractedGitHubIssue) :
    List (String × NotionPropValue) :=
  [("Name", NotionPropValue.title issue.title),
   (ISSUE_COLUMN, NotionPropValue.number issue.id),
   ("State", NotionPropValue.select issue.state),
   ("Issue URL", NotionPropValue.url issue.url),
   ("Created At", NotionPropValue.date issue.created_at)]
  ++ optionalEntry "Priority" NotionPropValue.select issue.priority
  ++ optionalEntry "Type" NotionPropValue.select issue.type
  ++ optionalEntry "Description" NotionPropValue.rich_text issue.description

/-- The body of the `for (const issue of issues)` loop of
`getNotionOperations`: look the issue's id up in the mapping and append to
the update list when the resulting `pageId` is truthy (`if (pageId)`), to the
create list otherwise.  The accumulator is the pair (issuesToCreate,
issuesToUpdate). -/
def getNotionOperationsStep (m : List (Nat × String))
    (acc : List ExtractedGitHubIssue × List (ExtractedGitHubIssue × String))
    (issue : ExtractedGitHubIssue) :
    List ExtractedGitHubIssue × List (ExtractedGitHubIssue × String) :=
  match List.lookup issue.id m with
  | some pageId =>
    if pageId == "" then (acc.1 ++ [issue], acc.2)
    else (acc.1, acc.2 ++ [(issue, pageId)])
  | none => (acc.1 ++ [issue], acc.2)

/-- `getNotionOperations` from the source.  The `Map<number, string>` is
embedded as an association list with unique keys; `List.lookup` models
`Map.get`. -/
def getNotionOperations (issues : List ExtractedGitHubIssue)
    (m : List (Nat × String)) :
    List ExtractedGitHubIssue × List (ExtractedGitHubIssue × String) :=
  issues.foldl (getNotionOperationsStep m) ([], [])

/-- `OPERATION_BATCH_SIZE` from the source. -/
def OPERATION_BATCH_SIZE : Nat := 10

/-- lodash `_.chunk(l, n)`: consecutive groups of `n` elements, the last
group possibly shorter; `[]` for an empty list or a zero size. -/
def chunkList (n : Nat) (l : List α) : List (List α) :=
  if h : l.isEmpty ∨ n = 0 then [] else
    l.take n :: chunkList n (l.drop n)
termination_by l.length
decreasing_by
  push_neg at h
  simp only [List.length_drop]
  exact Nat.sub_lt (List.length_pos.mpr (by simpa using h.1)) (Nat.pos_of_ne_zero h.2)

/-- The grouping step of `createPagesFrom`:
`_.chunk(issues, OPERATION_BATCH_SIZE)`.  Each group is then executed as one
concurrent batch; the batching structure is what is embedded here. -/
def createPagesChunks (issues : List ExtractedGitHubIssue) :
    List (List ExtractedGitHubIssue) :=
  chunkList OPERATION_BATCH_SIZE issues

/-- The five environment values the program reads, each possibly missing. -/
structure ProcessEnv where
  NOTION_DATABASE_ID : Option String
  GITHUB_REPO_OWNER : Option String
  GITHUB_REPO_NAME : Option String
  GITHUB_KEY : Option String
  NOTION_KEY : Option String
deriving DecidableEq

/-- The startup environment checks of the source (lines 108-112): each
`if (!process.env.X) throw new Error(...)` in order, embedded as the first
raised error message, or `ok` when all five values are truthy. -/
def validateEnv (env : ProcessEnv) : Except String Unit :=
  if !(jsTruthyStr env.NOTION_DATABASE_ID) then
    Except.error "Notion database must be defined"
  else if !(jsTruthyStr env.GITHUB_REPO_OWNER) then
    Except.error "Github repo owner must be defined"
  else if !(jsTruthyStr env.GITHUB_REPO_NAME) then
    Except.error "Github repo name must be defined"
  else if !(jsTruthyStr env.GITHUB_KEY) then
    Except.error "Github api key must be defined"
  else if !(jsTruthyStr env.NOTION_KEY) then
    Except.error "Notion api key must be defined"
  else Except.ok ()

/-- The reconciliation routing test: an issue is routed to the update list
exactly when the looked-up page id is truthy. -/
def routedToUpdate (m : List (Nat × String)) (issue : ExtractedGitHubIssue) : Bool :=
  jsTruthyStr (List.lookup issue.id m)

/-- The update-list entry produced for an issue, when it is routed to the
update list. -/
def updateEntry (m : List (Nat × String)) (issue : ExtractedGitHubIssue) :
    Option (ExtractedGitHubIssue × String) :=
  match List.lookup issue.id m with
  | some pageId => if pageId == "" then none else some (issue, pageId)
  | none => none

lemma getNotionOperations_foldl (m : List (Nat × String))
    (issues : List ExtractedGitHubIssue)
    (acc : List ExtractedGitHubIssue × List (ExtractedGitHubIssue × String)) :
    issues.foldl (getNotionOperationsStep m) acc =
      (acc.1 ++ issues.filter (fun i => !(routedToUpdate m i)),
       acc.2 ++ issues.filterMap (updateEntry m)) := by
  induction issues generalizing acc with
  | nil => simp
  | cons i rest ih =>
    rw [List.foldl_cons, ih]
    cases h : List.lookup i.id m with
    | none =>
      simp [getNotionOperationsStep, h, routedToUpdate, updateEntry, jsTruthyStr,
        List.filter_cons, List.filterMap_cons]
    | some pid =>
      by_cases hp : pid = "" <;>
        simp [getNotionOperationsStep, h, hp, routedToUpdate, updateEntry, jsTruthyStr,
          List.filter_cons, List.filterMap_cons]

lemma getNotionOperations_eq (issues : List ExtractedGitHubIssue)
    (m : List (Nat × String)) :
    getNotionOperations issues m =
      (issues.filter (fun i => !(routedToUpdate m i)),
       issues.filterMap (updateEntry m)) := by
  rw [getNotionOperations, getNotionOperations_foldl]
  simp

lemma updates_map_fst (m : List (Nat × String)) (issues : List ExtractedGitHubIssue) :
    (issues.filterMap (updateEntry m)).map Prod.fst =
      issues.filter (routedToUpdate m) := by
  induction issues with
  | nil => rfl
  | cons i rest ih =>
    cases h : List.lookup i.id m with
    | none =>
      simp [updateEntry, routedToUpdate, jsTruthyStr, h, List.filterMap_cons,
        List.filter_cons, ih]
    | some pid =>
      by_cases hp : pid = "" <;>
        simp [updateEntry, routedToUpdate, jsTruthyStr, h, hp, List.filterMap_cons,
          List.filter_cons, ih]

lemma count_filter_partition {α : Type} [DecidableEq α] (i : α) (p : α → Bool)
    (l : List α) :
    ((l.filter fun x => !(p x)).count i) + ((l.filter p).count i) = l.count i := by
  by_cases hp : p i
  · have h1 : ((l.filter fun x => !(p x)).count i) = 0 := by
      refine List.count_eq_zero.mpr fun hm => ?_
      have hmem := (List.mem_filter.mp hm).2
      simp [hp] at hmem
    rw [h1, List.count_filter (by simpa using hp), Nat.zero_add]
  · have h1 : ((l.filter p).count i) = 0 := by
      refine List.count_eq_zero.mpr fun hm => ?_
      exact hp (List.mem_filter.mp hm).2
    rw [h1, List.count_filter (by simp [hp]), Nat.add_zero]

lemma updateEntry_eq_some_iff (m : List (Nat × String)) (a i : ExtractedGitHubIssue)
    (pid : String) :
    updateEntry m a = some (i, pid) ↔
      a = i ∧ List.lookup a.id m = some pid ∧ pid ≠ "" := by
  cases h : List.lookup a.id m with
  | none =>
    have hu : updateEntry m a = none := by
      unfold updateEntry
      rw [h]
    simp [hu]
  | some q =>
    by_cases hq : q = ""
    · have hu : updateEntry m a = none := by
        unfold updateEntry
        rw [h, hq]
        rfl
      rw [hu]
      constructor
      · intro he
        simp at he
      · rintro ⟨-, hpe, hne⟩
        exact absurd ((Option.some.inj hpe).symm.trans hq) hne
    · have hu : updateEntry m a = some (a, q) := by
        unfold updateEntry
        rw [h]
        simp [hq]
      rw [hu]
      simp only [Option.some.injEq, Prod.mk.injEq]
      constructor
      · rintro ⟨rfl, rfl⟩
        exact ⟨rfl, rfl, hq⟩
      · rintro ⟨rfl, hqp, -⟩
        exact ⟨rfl, hqp⟩

/-- A sample extracted issue used in concrete instantiations. -/
def sampleIssue : ExtractedGitHubIssue :=
  { id := 1
    title := "Fix login"
    state := "open"
    url := "https://example.org/issues/1"
    created_at := "2024-01-01T00:00:00Z"
    type := none
    priority := none
    description := none }

/-- C1 as stated fails on the code: with the mapping `{1 ↦ ""}` the
identifier `1` is a key of the mapping, yet the issue is routed to the create
list, because the source tests `if (pageId)` — truthiness of the looked-up
row id — rather than key membership. -/
theorem c1_counterexample_empty_row_id :
    (List.lookup sampleIssue.id [(1, "")]).isSome = true ∧
    getNotionOperations [sampleIssue] [(1, "")] = ([sampleIssue], []) :=
  ⟨rfl, rfl⟩

/-- C1 (amended): `getNotionOperations` places every input issue occurrence
in exactly one of the two output lists (counting multiplicity), and an issue
is placed in the update list, paired with the resolved row id, exactly when
the mapping holds a truthy (non-empty) row id for its identifier; otherwise
— key absent, or key present with an empty-string row id — it is placed in
the create list. -/
theorem c1_reconciliation_partition (issues : List ExtractedGitHubIssue)
    (m : List (Nat × String)) :
    (∀ i, ((getNotionOperations issues m).1.count i) +
        (((getNotionOperations issues m).2.map Prod.fst).count i) =
          issues.count i) ∧
    (∀ i, i ∈ (getNotionOperations issues m).1 ↔
        i ∈ issues ∧ jsTruthyStr (List.lookup i.id m) = false) ∧
    (∀ i pid, (i, pid) ∈ (getNotionOperations issues m).2 ↔
        i ∈ issues ∧ List.lookup i.id m = some pid ∧ pid ≠ "") := by
  rw [getNotionOperations_eq]
  refine ⟨fun i => ?_, fun i => ?_, fun i pid => ?_⟩
  · rw [updates_map_fst]
    exact count_filter_partition i (routedToUpdate m) issues
  · rw [List.mem_filter]
    simp [routedToUpdate]
  · simp only [List.mem_filterMap]
    constructor
    · rintro ⟨a, ha, hed⟩
      obtain ⟨rfl, h2, h3⟩ := (updateEntry_eq_some_iff m a i pid).mp hed
      exact ⟨ha, h2, h3⟩
    · rintro ⟨hi, h2, h3⟩
      exact ⟨i, hi, (updateEntry_eq_some_iff m i i pid).mpr ⟨rfl, h2, h3⟩⟩

/-- C6: the create list and the issue components of the update list are
order-preserving subsequences of the input list: the single reconciliation
pass neither sorts nor duplicates, and relative input order is preserved
within each output list, for every mapping. -/
theorem c6_order_preserved (issues : List ExtractedGitHubIssue)
    (m : List (Nat × String)) :
    List.Sublist ((getNotionOperations issues m).1) issues ∧
    List.Sublist (((getNotionOperations issues m).2.map Prod.fst)) issues := by
  rw [getNotionOperations_eq]
  refine ⟨List.filter_sublist _, ?_⟩
  rw [updates_map_fst]
  exact List.filter_sublist _

/-- C7: the reconciliation engine is deterministic: any two runs on the same
issues and mapping produce the same pair of output lists. -/
theorem c7_deterministic (issues : List ExtractedGitHubIssue)
    (m : List (Nat × String))
    (r₁ r₂ : List ExtractedGitHubIssue × List (ExtractedGitHubIssue × String))
    (h₁ : r₁ = getNotionOperations issues m)
    (h₂ : r₂ = getNotionOperations issues m) : r₁ = r₂ :=
  h₁.trans h₂.symm

/-- C7 witness: the determinism theorem applied to a concrete run. -/
theorem c7_deterministic_witness :
    (([sampleIssue], []) :
        List ExtractedGitHubIssue × List (ExtractedGitHubIssue × String)) =
      ([sampleIssue], []) :=
  c7_deterministic [sampleIssue] [] ([sampleIssue], []) ([sampleIssue], []) rfl rfl

lemma chunkList_flatten {α : Type} (n : Nat) (hn : n ≠ 0) (l : List α) :
    (chunkList n l).flatten = l := by
  rw [chunkList]
  split
  · rename_i h
    rcases h with h | h
    · rw [List.isEmpty_iff.mp h]
      rfl
    · exact absurd h hn
  · rw [List.flatten_cons, chunkList_flatten n hn (l.drop n), List.take_append_drop]
termination_by l.length
decreasing_by
  rename_i h
  push_neg at h
  simp only [List.length_drop]
  exact Nat.sub_lt (List.length_pos.mpr (by simpa using h.1)) (Nat.pos_of_ne_zero h.2)

lemma chunkList10_length {α : Type} (l : List α) :
    (chunkList 10 l).length = (l.length + 9) / 10 := by
  rw [chunkList]
  split
  · rename_i h
    rcases h with h | h
    · rw [List.isEmpty_iff.mp h]
      simp
    · exact absurd h (by decide)
  · rename_i h
    push_neg at h
    have hpos : 0 < l.length := List.length_pos.mpr (by simpa using h.1)
    rw [List.length_cons, chunkList10_length (l.drop 10), List.length_drop]
    omega
termination_by l.length
decreasing_by
  rename_i h
  push_neg at h
  simp only [List.length_drop]
  exact Nat.sub_lt (List.length_pos.mpr (by simpa using h.1)) (by omega)

lemma chunkList_mem_length {α : Type} (n : Nat) (l : List α) :
    ∀ g ∈ chunkList n l, g.length ≤ n := by
  intro g hg
  rw [chunkList] at hg
  split at hg
  · simp at hg
  · rcases List.mem_cons.mp hg with rfl | hg2
    · simpa using List.length_take_le n l
    · exact chunkList_mem_length n (l.drop n) g hg2
termination_by l.length
decreasing_by
  rename_i h
  push_neg at h
  simp only [List.length_drop]
  exact Nat.sub_lt (List.length_pos.mpr (by simpa using h.1)) (Nat.pos_of_ne_zero h.2)

/-- C2: the batch grouping of `createPagesFrom` uses the fixed batch size
constant 10 and splits a list of N operations into exactly ceil(N/10)
consecutive groups, each of size at most 10, whose concatenation is the
input list: all N operations are executed, in order, across the groups. -/
theorem c2_batch_grouping (ops : List ExtractedGitHubIssue) :
    OPERATION_BATCH_SIZE = 10 ∧
    (createPagesChunks ops).length = (ops.length + 9) / 10 ∧
    (∀ g ∈ createPagesChunks ops, g.length ≤ 10) ∧
    (createPagesChunks ops).flatten = ops :=
  ⟨rfl, chunkList10_length ops, chunkList_mem_length 10 ops,
    chunkList_flatten 10 (by decide) ops⟩

lemma has_reverse (labels : List GitHubLabel) (id : String) :
    has labels.reverse id = has labels id := by
  rw [has, has, List.filter_reverse, List.any_reverse]

/-- C3: derivation of the classification and priority tags from a label set:
the defect tag "Bug" is produced whenever a defect label is present, even
together with a "Tech Debt" label, and the tag is absent when neither
recognized label occurs; the "Low Priority" tag is produced whenever a
low-priority label is present, even together with a "High Priority" label,
and is absent when neither occurs; both derivations are invariant under
reversing the label array, so this holds for both orders. -/
theorem c3_label_precedence (labels : List GitHubLabel) :
    (has labels "Bug" = true → getTypeFrom labels = some "Bug") ∧
    (has labels "Bug" = false → has labels "Tech Debt" = false →
      getTypeFrom labels = none) ∧
    (has labels "Low Priority" = true →
      getPriorityFrom labels = some "Low Priority") ∧
    (has labels "Low Priority" = false → has labels "High Priority" = false →
      getPriorityFrom labels = none) ∧
    getTypeFrom labels.reverse = getTypeFrom labels ∧
    getPriorityFrom labels.reverse = getPriorityFrom labels := by
  refine ⟨fun hb => ?_, fun hb ht => ?_, fun hl => ?_, fun hl hh => ?_, ?_, ?_⟩
  · rw [getTypeFrom, if_pos hb]
  · rw [getTypeFrom, if_neg (by simp [hb]), if_neg (by simp [ht])]
  · rw [getPriorityFrom, if_pos hl]
  · rw [getPriorityFrom, if_neg (by simp [hl]), if_neg (by simp [hh])]
  · rw [getTypeFrom, getTypeFrom, has_reverse, has_reverse]
  · rw [getPriorityFrom, getPriorityFrom, has_reverse, has_reverse]

/-- C3 witness: a label set carrying both recognized classification labels,
in tech-debt-first order, still yields the defect tag. -/
theorem c3_label_precedence_witness :
    getTypeFrom [GitHubLabel.obj (some "Tech Debt"), GitHubLabel.obj (some "Bug")] =
      some "Bug" :=
  (c3_label_precedence
    [GitHubLabel.obj (some "Tech Debt"), GitHubLabel.obj (some "Bug")]).1 (by decide)

/-- C10: label matching considers only object-shaped labels: prepending a
bare-string label never changes any match, and a label list containing only
the bare string "Bug" (or "Low Priority") yields no classification (or
priority) tag. -/
theorem c10_string_labels_ignored :
    (∀ s labels id, has (GitHubLabel.str s :: labels) id = has labels id) ∧
    getTypeFrom [GitHubLabel.str "Bug"] = none ∧
    getPriorityFrom [GitHubLabel.str "Low Priority"] = none := by
  refine ⟨fun s labels id => ?_, by decide, by decide⟩
  rw [has, has, List.filter_cons]
  simp [isLabelObject]

lemma exists_pair_mem_optionalEntry (k : String) (key : String)
    (mk : String → NotionPropValue) (v : Option String) :
    (∃ x, (k, x) ∈ optionalEntry key mk v) ↔
      (k = key ∧ jsTruthyStr v = true) := by
  cases v with
  | none => simp [optionalEntry, jsTruthyStr]
  | some s =>
    by_cases hs : s = ""
    · simp [optionalEntry, jsTruthyStr, hs]
    · simp [optionalEntry, jsTruthyStr, hs]

lemma priority_key_iff (issue : ExtractedGitHubIssue) :
    ("Priority" ∈ (notionPagePropertiesFrom issue).map Prod.fst) ↔
      jsTruthyStr issue.priority = true := by
  simp [notionPagePropertiesFrom, exists_pair_mem_optionalEntry, ISSUE_COLUMN]

lemma type_key_iff (issue : ExtractedGitHubIssue) :
    ("Type" ∈ (notionPagePropertiesFrom issue).map Prod.fst) ↔
      jsTruthyStr issue.type = true := by
  simp [notionPagePropertiesFrom, exists_pair_mem_optionalEntry, ISSUE_COLUMN]

lemma description_key_iff (issue : ExtractedGitHubIssue) :
    ("Description" ∈ (notionPagePropertiesFrom issue).map Prod.fst) ↔
      jsTruthyStr issue.description = true := by
  simp [notionPagePropertiesFrom, exists_pair_mem_optionalEntry, ISSUE_COLUMN]

/-- C4 (amended): the mapper's field-set always contains the five required
keys with the corresponding attribute values, and contains each optional key
exactly when the corresponding attribute is JavaScript-truthy, that is,
present and non-empty.  For Priority and Type, whose extracted values are
never empty strings, truthiness coincides with presence; a present-but-empty
description is omitted like an absent one, and an absent attribute never
produces an empty or null entry. -/
theorem c4_field_set (issue : ExtractedGitHubIssue) :
    ("Name", NotionPropValue.title issue.title) ∈ notionPagePropertiesFrom issue ∧
    (ISSUE_COLUMN, NotionPropValue.number issue.id) ∈ notionPagePropertiesFrom issue ∧
    ("State", NotionPropValue.select issue.state) ∈ notionPagePropertiesFrom issue ∧
    ("Issue URL", NotionPropValue.url issue.url) ∈ notionPagePropertiesFrom issue ∧
    ("Created At", NotionPropValue.date issue.created_at) ∈
      notionPagePropertiesFrom issue ∧
    (("Priority" ∈ (notionPagePropertiesFrom issue).map Prod.fst) ↔
      jsTruthyStr issue.priority = true) ∧
    (("Type" ∈ (notionPagePropertiesFrom issue).map Prod.fst) ↔
      jsTruthyStr issue.type = true) ∧
    (("Description" ∈ (notionPagePropertiesFrom issue).map Prod.fst) ↔
      jsTruthyStr issue.description = true) := by
  refine ⟨?_, ?_, ?_, ?_, ?_, priority_key_iff issue, type_key_iff issue,
    description_key_iff issue⟩ <;>
    simp [notionPagePropertiesFrom]

/-- A sample extracted issue whose description attribute is present but is
the empty string. -/
def sampleIssueEmptyDescription : ExtractedGitHubIssue :=
  { sampleIssue with description := some "" }

/-- C4 as stated fails on the code: an issue whose description attribute is
present, as the empty string, produces a field-set without the Description
key, because inclusion is decided by truthiness of the value rather than by
its presence. -/
theorem c4_counterexample_empty_description :
    sampleIssueEmptyDescription.description.isSome = true ∧
    "Description" ∉
      (notionPagePropertiesFrom sampleIssueEmptyDescription).map Prod.fst := by
  refine ⟨rfl, ?_⟩
  decide

/-- C4 witness: the amended field-set theorem applied to a concrete issue. -/
theorem c4_field_set_witness :
    ("Name", NotionPropValue.title sampleIssue.title) ∈
      notionPagePropertiesFrom sampleIssue :=
  (c4_field_set sampleIssue).1

/-- C5: the extracted description is the body truncated to its first 1999
characters — always of length at most 1999, and equal to the whole body when
the body is at most 1999 characters long — and is absent exactly when the
body is null or missing. -/
theorem c5_description_truncation (issue : GitHubIssue) :
    (∀ b, issue.body = some b →
      (extractIssuePropsFrom issue).description = some (jsSubstring b 1999) ∧
      (jsSubstring b 1999).data = b.data.take 1999 ∧
      (jsSubstring b 1999).length ≤ 1999 ∧
      (b.length ≤ 1999 → jsSubstring b 1999 = b)) ∧
    (issue.body = none → (extractIssuePropsFrom issue).description = none) := by
  constructor
  · intro b hb
    refine ⟨?_, rfl, ?_, ?_⟩
    · show (issue.body.map fun s => jsSubstring s 1999) = some (jsSubstring b 1999)
      rw [hb]
      rfl
    · show (b.data.take 1999).length ≤ 1999
      rw [List.length_take]
      exact min_le_left _ _
    · intro hlen
      rw [jsSubstring, List.take_of_length_le hlen]
  · intro hb
    show (issue.body.map fun s => jsSubstring s 1999) = none
    rw [hb]
    rfl

/-- A sample raw issue record with a short non-null body. -/
def sampleRawIssue : GitHubIssue :=
  { number := 2
    title := "Add logout"
    state := "closed"
    html_url := "https://example.org/issues/2"
    created_at := "2024-02-02T00:00:00Z"
    labels := [GitHubLabel.obj (some "Bug")]
    body := some "hello" }

/-- C5 witness: the truncation theorem applied to a concrete raw issue. -/
theorem c5_description_truncation_witness :
    (extractIssuePropsFrom sampleRawIssue).description =
      some (jsSubstring "hello" 1999) :=
  ((c5_description_truncation sampleRawIssue).1 "hello" rfl).1

/-- C9: an empty-string body yields a present-but-empty extracted
description, and the mapper then omits the Description key entirely from its
field-set, because optional-field inclusion is decided by JavaScript
truthiness of the attribute value rather than by its presence. -/
theorem c9_empty_body_description_omitted (issue : GitHubIssue)
    (hb : issue.body = some "") :
    (extractIssuePropsFrom issue).description = some "" ∧
    "Description" ∉
      (notionPagePropertiesFrom (extractIssuePropsFrom issue)).map Prod.fst := by
  have hdesc : (extractIssuePropsFrom issue).description = some "" := by
    show (issue.body.map fun s => jsSubstring s 1999) = some ""
    rw [hb]
    rfl
  refine ⟨hdesc, ?_⟩
  intro hmem
  have := (description_key_iff (extractIssuePropsFrom issue)).mp hmem
  rw [hdesc] at this
  simp [jsTruthyStr] at this

/-- A sample raw issue record whose body is the empty string. -/
def sampleRawIssueEmptyBody : GitHubIssue :=
  { sampleRawIssue with body := some "" }

/-- C9 witness: the empty-body theorem applied to a concrete raw issue. -/
theorem c9_empty_body_description_omitted_witness :
    (extractIssuePropsFrom sampleRawIssueEmptyBody).description = some "" ∧
    "Description" ∉
      (notionPagePropertiesFrom (extractIssuePropsFrom sampleRawIssueEmptyBody)).map
        Prod.fst :=
  c9_empty_body_description_omitted sampleRawIssueEmptyBody rfl

/-- C8: startup validation succeeds exactly when all five required
environment values are present and non-empty; otherwise it raises an error
whose message names the first missing value, in the check order of the
source. -/
theorem c8_env_validation (env : ProcessEnv) :
    (validateEnv env = Except.ok () ↔
      (jsTruthyStr env.NOTION_DATABASE_ID = true ∧
       jsTruthyStr env.GITHUB_REPO_OWNER = true ∧
       jsTruthyStr env.GITHUB_REPO_NAME = true ∧
       jsTruthyStr env.GITHUB_KEY = true ∧
       jsTruthyStr env.NOTION_KEY = true)) ∧
    (∀ msg, validateEnv env = Except.error msg →
      ((msg = "Notion database must be defined" ∧
          jsTruthyStr env.NOTION_DATABASE_ID = false) ∨
       (msg = "Github repo owner must be defined" ∧
          jsTruthyStr env.GITHUB_REPO_OWNER = false) ∨
       (msg = "Github repo name must be defined" ∧
          jsTruthyStr env.GITHUB_REPO_NAME = false) ∨
       (msg = "Github api key must be defined" ∧
          jsTruthyStr env.GITHUB_KEY = false) ∨
       (msg = "Notion api key must be defined" ∧
          jsTruthyStr env.NOTION_KEY = false))) := by
  cases h1 : jsTruthyStr env.NOTION_DATABASE_ID <;>
  cases h2 : jsTruthyStr env.GITHUB_REPO_OWNER <;>
  cases h3 : jsTruthyStr env.GITHUB_REPO_NAME <;>
  cases h4 : jsTruthyStr env.GITHUB_KEY <;>
  cases h5 : jsTruthyStr env.NOTION_KEY <;>
    simp [validateEnv, h1, h2, h3, h4, h5]

/-- A fully populated environment. -/
def sampleGoodEnv : ProcessEnv :=
  { NOTION_DATABASE_ID := some "db"
    GITHUB_REPO_OWNER := some "owner"
    GITHUB_REPO_NAME := some "repo"
    GITHUB_KEY := some "gk"
    NOTION_KEY := some "nk" }

/-- C8 witness: the validation theorem applied to a fully populated
environment. -/
theorem c8_env_validation_witness : validateEnv sampleGoodEnv = Except.ok () :=
  (c8_env_validation sampleGoodEnv).1.mpr (by decide)

/-- C1 witness: the amended partition theorem applied to a concrete run in
which the single issue's identifier is not a key of the mapping. -/
theorem c1_reconciliation_partition_witness :
    sampleIssue ∈ (getNotionOperations [sampleIssue] [(2, "page-a")]).1 ↔
      sampleIssue ∈ [sampleIssue] ∧
        jsTruthyStr (List.lookup sampleIssue.id [(2, "page-a")]) = false :=
  (c1_reconciliation_partition [sampleIssue] [(2, "page-a")]).2.1 sampleIssue

/-- C2 witness: the batch grouping theorem applied to a concrete list of 25
operations. -/
theorem c2_batch_grouping_witness :
    (createPagesChunks (List.replicate 25 sampleIssue)).length =
      ((List.replicate 25 sampleIssue).length + 9) / 10 :=
  (c2_batch_grouping (List.replicate 25 sampleIssue)).2.1

/-- C6 witness: the order preservation theorem applied to a concrete run. -/
theorem c6_order_preserved_witness :
    List.Sublist ((getNotionOperations [sampleIssue] [(1, "page-b")]).1)
      [sampleIssue] :=
  (c6_order_preserved [sampleIssue] [(1, "page-b")]).1
